import Mathlib

/-!
Verification of the kernel-selection / epilogue-fusion core and the
templated-attention higher-order operator of this repository.

The development shallow-embeds the Python source:

* `torch/_higher_order_ops/templated_attention.py` is embedded directly:
  the argument-validation logic of the two HigherOrderOperator `__call__`
  methods, the functionalization rules, the autograd `Function`, and the
  dtype/contiguity behaviour of `math_attention` / `sdpa_dense`.
  Tensors are modelled at the dtype/shape/contiguity level, which is the
  level at which the verified claims speak; user-supplied callables are
  modelled by the one attribute the embedded code inspects (their
  mutation verdict), with dispatch continuations passed explicitly so
  that "raises before dispatching" is expressible as independence from
  the continuation.

* The autotuning core (Feasibility Filter, Selector, Epilogue Fusion
  Analyzer) has no implementation under the reviewed sources; only its
  test file `test/inductor/test_cutlass_backend.py` is present.  Those
  components are therefore modelled from the specification (each such
  definition carries a doc comment starting `Modelled from the spec:`),
  while the concrete scenarios and the assertions of the test file are
  embedded verbatim as data.
-/

namespace PytorchSpec

/-- Torch scalar dtypes used by the embedded code. -/
inductive DType
  | float16
  | bfloat16
  | float32
  | float64
  | int32
  | int64
  deriving DecidableEq, Repr

/-- Bit width of a dtype; used to express "wider dtype". -/
def DType.bits : DType → Nat
  | .float16 => 16
  | .bfloat16 => 16
  | .float32 => 32
  | .float64 => 64
  | .int32 => 32
  | .int64 => 64

/-- Dtype promotion for binary ops between floating tensors: equal dtypes
stay, otherwise the wider dtype wins (sufficient for the embedded code,
which only multiplies tensors of equal dtype). -/
def DType.promote (a b : DType) : DType :=
  if a = b then a else if b.bits < a.bits then a else b

/-- Tensor model at the granularity the verified claims are about:
dtype, shape and contiguity.  Numeric contents are not modelled here;
the numeric facts of the fusion claims are handled by the exact-value
model in the `CutlassAutotune` namespace below. -/
structure Tensor where
  dtype : DType
  shape : List Nat
  contiguous : Bool
  deriving DecidableEq, Repr

/-- `t.to(d)`: sets the dtype, keeps shape and layout. -/
def Tensor.toD (t : Tensor) (d : DType) : Tensor :=
  { t with dtype := d }

/-- `t.transpose(-2, -1)`: swaps the last two dims; result is a
non-contiguous view. -/
def Tensor.transposeLast2 (t : Tensor) : Tensor :=
  { t with
    shape := t.shape.dropLast.dropLast ++ (t.shape.drop (t.shape.length - 2)).reverse
    contiguous := false }

/-- `a @ b`: batched matmul; batch dims from `a`, last dim from `b`;
dtype follows promotion; result freshly allocated, hence contiguous. -/
def Tensor.matmul (a b : Tensor) : Tensor :=
  { dtype := a.dtype.promote b.dtype
    shape := a.shape.dropLast ++ [b.shape.getLastD 0]
    contiguous := true }

/-- `t.softmax(dim=-1)`: same shape, same dtype. -/
def Tensor.softmaxLast (t : Tensor) : Tensor :=
  { t with contiguous := true }

/-- `t.logsumexp(dim=-1)`: drops the last dim, keeps the dtype. -/
def Tensor.logsumexpLast (t : Tensor) : Tensor :=
  { dtype := t.dtype, shape := t.shape.dropLast, contiguous := true }

/-- `t.contiguous()`. -/
def Tensor.contiguousT (t : Tensor) : Tensor :=
  { t with contiguous := true }

/-- Working precision chosen at the top of `math_attention` (line 97):
float64 for float64 queries, float32 otherwise. -/
def working_precision (query : Tensor) : DType :=
  if query.dtype = DType.float64 then DType.float64 else DType.float32

/-- The `scores` value of `math_attention` after the score-mod
application (lines 99-112): `(query @ key.transpose(-2,-1))` cast to
working precision, then the vmapped `score_mod` applied, then cast to
working precision again.  `score_mod` is the user callable, modelled as
an arbitrary tensor transformer (the four `arange` index tensors only
plumb indices and cannot affect dtype, since the result is recast). -/
def attention_scores (query key : Tensor) (score_mod : Tensor → Tensor) : Tensor :=
  let wp := working_precision query
  let scores := (query.matmul key.transposeLast2).toD wp
  (score_mod scores).toD wp

/-- Embedding of `math_attention` (lines 77-120): computes the scores in
working precision, takes `logsumexp` of them (working precision), takes
`softmax` of them, casts back to the query dtype and multiplies by
`value`. -/
def math_attention (query key value : Tensor) (score_mod : Tensor → Tensor) :
    Tensor × Tensor :=
  let scores := attention_scores query key score_mod
  let logsumexp := scores.logsumexpLast
  let post := scores.softmaxLast
  ((post.toD query.dtype).matmul value, logsumexp)

/-- Embedding of `sdpa_dense` (lines 123-133), the
CompositeExplicitAutograd implementation: calls `math_attention` and
makes the attention output contiguous. -/
def sdpa_dense (query key value : Tensor) (score_mod : Tensor → Tensor) :
    Tensor × Tensor :=
  let r := math_attention query key value score_mod
  (r.1.contiguousT, r.2)

/-! ### HigherOrderOperator call validation (templated_attention.py lines 21-74) -/

/-- One Python value passed through `*other_buffers`: either a tensor or
some non-tensor object.  The embedded `__call__` methods only test
`isinstance(buf, torch.Tensor)`. -/
inductive PyValue
  | tensor (t : Tensor)
  | nonTensor
  deriving DecidableEq, Repr

def PyValue.isTensor : PyValue → Bool
  | .tensor _ => true
  | .nonTensor => false

/-- Errors raised by the embedded templated-attention code. -/
inductive AttnError
  | otherBuffersMustBeTensors
  | capturedBufferRequiresGrad
  | unsupportedAliasMutation
  deriving DecidableEq, Repr

/-- Embedding of `TemplatedAttentionHOP.__call__` (lines 25-35): raises
`RuntimeError("Other buffers must be tensors.")` unless every element of
`other_buffers` is a tensor; otherwise dispatches via
`super().__call__`.  The dispatcher is passed as an explicit
continuation, so raising before dispatch is the statement that the
error branch does not depend on it. -/
def TemplatedAttentionHOP_call
    (dispatch : Tensor → Tensor → Tensor → List PyValue → Tensor × Tensor)
    (query key value : Tensor) (other_buffers : List PyValue) :
    Except AttnError (Tensor × Tensor) :=
  if other_buffers.all PyValue.isTensor then
    Except.ok (dispatch query key value other_buffers)
  else
    Except.error AttnError.otherBuffersMustBeTensors

/-- Embedding of `TemplatedAttentionBackwardHOP.__call__` (lines 46-70):
the same tensor check over `other_buffers`, then dispatch of the
backward computation. -/
def TemplatedAttentionBackwardHOP_call
    (dispatch : Tensor → Tensor → Tensor → Tensor → Tensor → Tensor →
      List PyValue → Tensor × Tensor × Tensor)
    (query key value out logsumexp grad_out : Tensor)
    (other_buffers : List PyValue) :
    Except AttnError (Tensor × Tensor × Tensor) :=
  if other_buffers.all PyValue.isTensor then
    Except.ok (dispatch query key value out logsumexp grad_out other_buffers)
  else
    Except.error AttnError.otherBuffersMustBeTensors

/-! ### Functionalization rules (templated_attention.py lines 184-234 and 573-626) -/

/-- Model of a traced user callable (`score_mod`, `fw_graph`,
`joint_graph`).  The one attribute the embedded functionalization code
consults is the verdict of `_has_potential_branch_input_mutation` on its
functionalized form: whether running it would mutate one of its inputs
(the `other_buffers` free variables). -/
structure UserGraph where
  mutatesInputs : Bool
  deriving DecidableEq, Repr

/-- Embedding of `templated_attention_functionalize` (lines 184-234):
unwraps the tensors, runs the mutation analysis on the functionalized
`score_mod`, raises `UnsupportedAliasMutationException("Mutations
detected in score_mod")` when a mutation is detected, and only otherwise
redispatches `templated_attention` on the unwrapped tensors. -/
def templated_attention_functionalize
    (dispatch : Tensor → Tensor → Tensor → UserGraph → List Tensor → Tensor × Tensor)
    (query key value : Tensor) (score_mod : UserGraph)
    (other_buffers : List Tensor) :
    Except AttnError (Tensor × Tensor) :=
  if score_mod.mutatesInputs then
    Except.error AttnError.unsupportedAliasMutation
  else
    Except.ok (dispatch query key value score_mod other_buffers)

/-- Embedding of `templated_attention_backward_functionalize` (lines
573-626): unwraps the tensors and redispatches unconditionally — per its
own docstring it "skips that mutate check", performing no mutation
analysis on `fw_graph` or `joint_graph`. -/
def templated_attention_backward_functionalize
    (dispatch : Tensor → Tensor → Tensor → Tensor → Tensor → Tensor →
      UserGraph → UserGraph → List Tensor → Tensor × Tensor × Tensor)
    (query key value out logsumexp grad_out : Tensor)
    (fw_graph joint_graph : UserGraph) (other_buffers : List Tensor) :
    Except AttnError (Tensor × Tensor × Tensor) :=
  Except.ok
    (dispatch query key value out logsumexp grad_out fw_graph joint_graph
      other_buffers)

/-! ### Autograd op (templated_attention.py lines 341-379) -/

/-- A captured buffer as seen by the autograd op: the only attribute the
embedded code reads is `requires_grad`. -/
structure GradBuffer where
  requiresGrad : Bool
  deriving DecidableEq, Repr

/-- Embedding of `TemplatedAttentionAutogradOp.forward` (lines 342-358):
asserts that no captured buffer requires grad ("Captured buffers that
require grad are not yet supported."), then dispatches
`templated_attention` below autograd and returns `(out, logsumexp)`. -/
def TemplatedAttentionAutogradOp_forward
    (dispatch : Tensor → Tensor → Tensor → UserGraph → List GradBuffer →
      Tensor × Tensor)
    (query key value : Tensor) (fw_graph : UserGraph) (joint_graph : UserGraph)
    (other_buffers : List GradBuffer) :
    Except AttnError (Tensor × Tensor) :=
  let any_buffer_requires_grad := other_buffers.any (fun b => b.requiresGrad)
  if any_buffer_requires_grad then
    Except.error AttnError.capturedBufferRequiresGrad
  else
    Except.ok (dispatch query key value fw_graph other_buffers)

/-- Embedding of `TemplatedAttentionAutogradOp.backward` (lines 360-379):
calls `templated_attention_backward` for the three input gradients, and
returns them followed by `[None] * (2 + len(other_buffers))` — `None`
for the two graph arguments and for every captured buffer. -/
def TemplatedAttentionAutogradOp_backward
    (bwDispatch : Tensor → Tensor → Tensor → Tensor → Tensor → Tensor →
      UserGraph → UserGraph → List GradBuffer → Tensor × Tensor × Tensor)
    (query key value out logsumexp : Tensor) (grad_out : Tensor)
    (fw_graph joint_graph : UserGraph) (other_buffers : List GradBuffer) :
    List (Option Tensor) :=
  let none_grads : List (Option Tensor) :=
    List.replicate (2 + other_buffers.length) none
  let g := bwDispatch query key value out logsumexp grad_out fw_graph
    joint_graph other_buffers
  [some g.1, some g.2.1, some g.2.2] ++ none_grads

end PytorchSpec

namespace CutlassAutotune

open PytorchSpec

/-! ### Candidate model and Feasibility Filter

The filter/selector implementation is not among the reviewed sources;
only `test/inductor/test_cutlass_backend.py` is.  The data model and the
filter rules below are modelled from the specification, and the test
file's concrete scenarios are embedded as data further down. -/

/-- Modelled from the spec: the closed tagged-variant of backend kinds
(templated-codegen = CUTLASS, prebuilt-library = Triton-style prebuilt,
reference = ATen). -/
inductive BackendKind
  | templatedCodegen
  | prebuiltLibrary
  | reference
  deriving DecidableEq, Repr

/-- Modelled from the spec: a CandidateDescriptor describes one
buildable kernel implementation; the threshold rule only consults its
backend tag. -/
structure CandidateDescriptor where
  backend : BackendKind
  deriving DecidableEq, Repr

/-- Modelled from the spec: an OperationSpec for an (m×k)·(k×n) matmul;
the threshold rule only consults its shape volume. -/
structure OperationSpec where
  m : Nat
  k : Nat
  n : Nat
  deriving DecidableEq, Repr

/-- Total operation volume m×n×k, the quantity the minimum-problem-size
rule compares against the threshold. -/
def OperationSpec.volume (s : OperationSpec) : Nat := s.m * s.n * s.k

/-- Modelled from the spec: the Feasibility Filter minimum-problem-size
rule exactly as the spec words it — "total operation volume must meet
or exceed a configurable threshold; below it, templated-codegen
candidates are dropped".  Inclusive boundary: a templated candidate
passes when `threshold ≤ volume`. -/
def passes_min_size_spec (threshold : Nat) (s : OperationSpec)
    (c : CandidateDescriptor) : Bool :=
  match c.backend with
  | BackendKind.templatedCodegen => decide (threshold ≤ s.volume)
  | _ => true

/-- Modelled from the spec and pinned at the boundary by
`test_max_autotune_cutlass_threshold`: that test sets the threshold to
100000, compiles a matmul of volume exactly 100000, and asserts that
every templated (CUTLASS) candidate was filtered out.  The boundary the
code implements is therefore exclusive: a templated candidate passes
only when `threshold < volume`. -/
def passes_min_size_code (threshold : Nat) (s : OperationSpec)
    (c : CandidateDescriptor) : Bool :=
  match c.backend with
  | BackendKind.templatedCodegen => decide (threshold < s.volume)
  | _ => true

/-- Modelled from the spec: the candidate list the Selector passes to
the Benchmark Runner, observable at the test-injection point, is the
enumeration filtered by feasibility (spec wording of the boundary). -/
def benchmark_list_spec (threshold : Nat) (s : OperationSpec)
    (cands : List CandidateDescriptor) : List CandidateDescriptor :=
  cands.filter (passes_min_size_spec threshold s)

/-- Same benchmark list under the boundary behaviour the test pins. -/
def benchmark_list_code (threshold : Nat) (s : OperationSpec)
    (cands : List CandidateDescriptor) : List CandidateDescriptor :=
  cands.filter (passes_min_size_code threshold s)

/-- Modelled from the spec: a BenchmarkResult — candidate identity,
measured latency and success status. -/
structure BenchmarkResult where
  cand : CandidateDescriptor
  latency : ℚ
  success : Bool
  deriving DecidableEq, Repr

/-- Modelled from the spec: the Selector ranks successful results by
ascending measured latency and returns the winner (first-listed result
kept on ties, which realises the declared backend priority order of the
enumeration). -/
def selectWinner (results : List BenchmarkResult) : Option CandidateDescriptor :=
  let ranked := results.filter (fun r => r.success)
  (ranked.foldl
    (fun best r =>
      match best with
      | none => some r
      | some b => if r.latency < b.latency then some r else some b)
    none).map (fun r => r.cand)

/-- The scenario of `test_max_autotune_cutlass_threshold` (lines
67-112): a (100×10)·(10×100) half-precision matmul, so m = 100, k = 10,
n = 100 and volume 100·100·10 = 100000. -/
def thresholdTestOp : OperationSpec := { m := 100, k := 10, n := 100 }

/-- The requested backends of the threshold test
(`max_autotune_gemm_backends: "CUTLASS,ATen"`): one templated-codegen
candidate and one reference candidate, in request order. -/
def thresholdTestCands : List CandidateDescriptor :=
  [{ backend := BackendKind.templatedCodegen },
   { backend := BackendKind.reference }]

/-- The threshold the test configures
(`cuda.cutlass_backend_min_gemm_size: 100000`). -/
def thresholdTestMinSize : Nat := 100000

/-! ### Epilogue Fusion Analyzer

The analyzer implementation is likewise absent from the reviewed
sources; legality and the run semantics are modelled from the spec,
while the counter values the code actually produces are pinned by the
embedded assertions of the epilogue-fusion tests. -/

/-- The elementwise epilogue operations appearing in the epilogue-fusion
tests, with their exact value action on a matrix element.  `a - c` is
embedded as `addConst (-c)`; `castTo` records a dtype cast (exact value
preserved in this rational-valued model); `divConst` is a
dimension-derived scalar divisor that is a broadcastable constant per
output tile (e.g. `b.size(1)` under static shapes). -/
inductive EpilogueOp
  | scale (c : ℚ)
  | addConst (c : ℚ)
  | relu
  | clampMax (c : ℚ)
  | castTo (d : DType)
  | divConst (c : ℚ)
  deriving DecidableEq, Repr

/-- Exact value action of one epilogue op. -/
def EpilogueOp.apply : EpilogueOp → ℚ → ℚ
  | .scale c, x => x * c
  | .addConst c, x => x + c
  | .relu, x => max x 0
  | .clampMax c, x => min x c
  | .castTo _, x => x
  | .divConst c, x => x / c

/-- The whole epilogue applied to one output element, first op first. -/
def applyEpilogue (eps : List EpilogueOp) (x : ℚ) : ℚ :=
  eps.foldl (fun a e => e.apply a) x

/-- Modelled from the spec: what the winning kernel exposes to the
legality analysis — its internal accumulation dtype and whether it has a
post-accumulation cast hook ("explicit cast stage"). -/
structure WinningKernel where
  accumulator_dtype : DType
  has_cast_stage : Bool
  deriving DecidableEq, Repr

/-- Modelled from the spec: whether one epilogue op is fusible relative
to the winning kernel.  All of the test epilogue ops are elementwise or
broadcastable per output tile (a constant scalar divisor included); the
disqualifier is an op changing the output dtype to one different from
the kernel's accumulator when the kernel has no explicit cast stage. -/
def EpilogueOp.fusible (kern : WinningKernel) : EpilogueOp → Bool
  | .castTo d => decide (d = kern.accumulator_dtype) || kern.has_cast_stage
  | _ => true

/-- Modelled from the spec: the Epilogue Fusion Analyzer legality
verdict — every epilogue op must be fusible. -/
def fusionLegal (kern : WinningKernel) (eps : List EpilogueOp) : Bool :=
  eps.all (EpilogueOp.fusible kern)

/-- Reference computation for one output element of an (m×k)·(k×n)
matmul in exact arithmetic. -/
def mmRef {m kk n : Nat} (a : Fin m → Fin kk → ℚ) (b : Fin kk → Fin n → ℚ) :
    Fin m → Fin n → ℚ :=
  fun i j => ∑ l : Fin kk, a i l * b l j

/-- The reference result of the full computation: the epilogue applied
elementwise to the exact matmul. -/
def referenceCompute {m kk n : Nat} (eps : List EpilogueOp)
    (a : Fin m → Fin kk → ℚ) (b : Fin kk → Fin n → ℚ) : Fin m → Fin n → ℚ :=
  fun i j => applyEpilogue eps (mmRef a b i j)

/-- Modelled from the spec: execution of the winning kernel together
with the epilogue.  On fusion success the epilogue is folded into the
kernel's output-writing path and the epilogue fusion counter is
incremented once; on failure the unfused kernel output is materialised
and the epilogue runs as a separate elementwise pass over it, with no
counter increment.  The result is the counter increment together with
the produced output. -/
def runSelected {m kk n : Nat} (kern : WinningKernel) (eps : List EpilogueOp)
    (a : Fin m → Fin kk → ℚ) (b : Fin kk → Fin n → ℚ) :
    Nat × (Fin m → Fin n → ℚ) :=
  if fusionLegal kern eps then
    (1, fun i j => applyEpilogue eps (mmRef a b i j))
  else
    let kernelOut := mmRef a b
    (0, fun i j => applyEpilogue eps (kernelOut i j))

/-! ### Embedded epilogue-fusion test scenarios

Data embedded from `_test_max_autotune_cutlass_backend_epilogue_fusion`
and its callers (test_cutlass_backend.py lines 184-347). -/

/-- The parameters of one epilogue-fusion test: the flags it passes to
the shared harness, the `expected_fuse_count` it asserts, and the
elementwise epilogue of its `mm` function after the (256×32)·(32×256)
matmul. -/
structure FusionTestCase where
  mixed_precision : Bool
  fp16 : Bool
  expected_fuse_count : Nat
  epilogue : List EpilogueOp
  deriving DecidableEq, Repr

/-- `test_max_autotune_cutlass_backend_simple_fusion_fp16` (lines
236-243): `mm = (a @ b) * 3.0`, fp16 with matching accumulate dtype
(`mixed_precision=False`), `expected_fuse_count=0` — the comment notes
the pointwise ops are pre-fused into a single Pointwise node. -/
def simple_fusion_fp16_case : FusionTestCase :=
  { mixed_precision := false, fp16 := true, expected_fuse_count := 0,
    epilogue := [EpilogueOp.scale 3] }

/-- `test_max_autotune_cutlass_backend_no_fusion_dtype_mismatch` (lines
317-324): `mm = (a @ b).to(torch.float32) * 0.00001`, fp16 inputs with
reduced-precision accumulation, `expected_fuse_count=0`. -/
def no_fusion_dtype_mismatch_case : FusionTestCase :=
  { mixed_precision := true, fp16 := true, expected_fuse_count := 0,
    epilogue := [EpilogueOp.castTo DType.float32,
                 EpilogueOp.scale (0.00001 : ℚ)] }

/-- `test_max_autotune_cutlass_backend_shape_dependent_normalization_fusion`
(lines 341-347): `mm = (a @ b) / b.size(1)` with `b : 32×256`, so the
divisor is 256; `expected_fuse_count=0`. -/
def shape_dependent_normalization_case : FusionTestCase :=
  { mixed_precision := true, fp16 := true, expected_fuse_count := 0,
    epilogue := [EpilogueOp.divConst 256] }

/-- Embedding of the harness assertion (lines 227-230): after the
compiled run, `assert actual_count == expected_fuse_count` — a run of a
fusion test passes exactly when the `cuda_epilogue_fusion_counter` ends
at the test's expected value. -/
def fusion_test_passes (tc : FusionTestCase) (actual_count : Nat) : Bool :=
  actual_count == tc.expected_fuse_count

end CutlassAutotune

namespace PytorchSpec

/-! ### Concrete fixtures used by the witness theorems -/

/-- A concrete half-precision 4-d tensor. -/
def tFix : Tensor :=
  { dtype := DType.float16, shape := [2, 4, 8, 16], contiguous := true }

/-- A concrete forward dispatch continuation. -/
def dispatchFFix : Tensor → Tensor → Tensor → List PyValue → Tensor × Tensor :=
  fun q _ _ _ => (q, q)

/-- A concrete backward dispatch continuation. -/
def dispatchBFix : Tensor → Tensor → Tensor → Tensor → Tensor → Tensor →
    List PyValue → Tensor × Tensor × Tensor :=
  fun q _ _ _ _ _ _ => (q, q, q)

/-- A concrete functionalized forward dispatch continuation. -/
def dispatchFnFix : Tensor → Tensor → Tensor → UserGraph → List Tensor →
    Tensor × Tensor :=
  fun q _ _ _ _ => (q, q)

/-- A concrete functionalized backward dispatch continuation. -/
def dispatchFnBFix : Tensor → Tensor → Tensor → Tensor → Tensor → Tensor →
    UserGraph → UserGraph → List Tensor → Tensor × Tensor × Tensor :=
  fun q _ _ _ _ _ _ _ _ => (q, q, q)

/-- A concrete autograd forward dispatch continuation. -/
def dispatchAgFix : Tensor → Tensor → Tensor → UserGraph → List GradBuffer →
    Tensor × Tensor :=
  fun q _ _ _ _ => (q, q)

/-- A concrete autograd backward dispatch continuation. -/
def dispatchAgBFix : Tensor → Tensor → Tensor → Tensor → Tensor → Tensor →
    UserGraph → UserGraph → List GradBuffer → Tensor × Tensor × Tensor :=
  fun q _ _ _ _ _ _ _ _ => (q, q, q)

/-! ### Claim theorems for the templated-attention embedding -/

/-- C8: for every call to `templated_attention` or
`templated_attention_backward` in which some element of `other_buffers`
is not a tensor, the call raises `RuntimeError` before dispatching (the
error is produced for every dispatch continuation, so no computation on
query/key/value happens); when every element is a tensor the check never
raises and the call dispatches. -/
theorem C8_other_buffers_tensor_check
    (dispatchF : Tensor → Tensor → Tensor → List PyValue → Tensor × Tensor)
    (dispatchB : Tensor → Tensor → Tensor → Tensor → Tensor → Tensor →
      List PyValue → Tensor × Tensor × Tensor)
    (query key value out logsumexp grad_out : Tensor)
    (other_buffers : List PyValue) :
    ((∃ b ∈ other_buffers, b.isTensor = false) →
      TemplatedAttentionHOP_call dispatchF query key value other_buffers
        = Except.error AttnError.otherBuffersMustBeTensors
      ∧ TemplatedAttentionBackwardHOP_call dispatchB query key value out
          logsumexp grad_out other_buffers
        = Except.error AttnError.otherBuffersMustBeTensors)
    ∧ ((∀ b ∈ other_buffers, b.isTensor = true) →
      TemplatedAttentionHOP_call dispatchF query key value other_buffers
        = Except.ok (dispatchF query key value other_buffers)
      ∧ TemplatedAttentionBackwardHOP_call dispatchB query key value out
          logsumexp grad_out other_buffers
        = Except.ok (dispatchB query key value out logsumexp grad_out
            other_buffers)) := by
  constructor
  · intro h
    have hall : other_buffers.all PyValue.isTensor = false := by
      rcases h with ⟨b, hb, hbt⟩
      cases hcase : other_buffers.all PyValue.isTensor with
      | false => rfl
      | true =>
        have := List.all_eq_true.mp hcase b hb
        rw [hbt] at this
        exact absurd this (by simp)
    constructor <;>
      simp [TemplatedAttentionHOP_call, TemplatedAttentionBackwardHOP_call, hall]
  · intro h
    have hall : other_buffers.all PyValue.isTensor = true :=
      List.all_eq_true.mpr h
    constructor <;>
      simp [TemplatedAttentionHOP_call, TemplatedAttentionBackwardHOP_call, hall]

/-- C8 witness: with a single non-tensor buffer the forward call errors,
and with a single tensor buffer it dispatches. -/
theorem C8_other_buffers_tensor_check_witness :
    TemplatedAttentionHOP_call dispatchFFix tFix tFix tFix [PyValue.nonTensor]
      = Except.error AttnError.otherBuffersMustBeTensors
    ∧ TemplatedAttentionHOP_call dispatchFFix tFix tFix tFix
        [PyValue.tensor tFix]
      = Except.ok (dispatchFFix tFix tFix tFix [PyValue.tensor tFix]) :=
  ⟨((C8_other_buffers_tensor_check dispatchFFix dispatchBFix tFix tFix tFix
      tFix tFix tFix [PyValue.nonTensor]).1
      ⟨PyValue.nonTensor, by simp, rfl⟩).1,
   ((C8_other_buffers_tensor_check dispatchFFix dispatchBFix tFix tFix tFix
      tFix tFix tFix [PyValue.tensor tFix]).2
      (by intro b hb; simp at hb; rw [hb]; rfl)).1⟩

/-- C9: the autograd op supports gradients only for query, key and
value: the forward asserts that no captured buffer requires grad (and
proceeds otherwise), and the backward returns the three input gradients
followed by exactly `2 + len(other_buffers)` `None`s — `None` for the
two graph arguments and for every captured buffer. -/
theorem C9_autograd_grads_only_qkv
    (dispatch : Tensor → Tensor → Tensor → UserGraph → List GradBuffer →
      Tensor × Tensor)
    (bwDispatch : Tensor → Tensor → Tensor → Tensor → Tensor → Tensor →
      UserGraph → UserGraph → List GradBuffer → Tensor × Tensor × Tensor)
    (query key value out logsumexp grad_out : Tensor)
    (fw_graph joint_graph : UserGraph) (other_buffers : List GradBuffer) :
    ((∃ b ∈ other_buffers, b.requiresGrad = true) →
      TemplatedAttentionAutogradOp_forward dispatch query key value fw_graph
          joint_graph other_buffers
        = Except.error AttnError.capturedBufferRequiresGrad)
    ∧ ((∀ b ∈ other_buffers, b.requiresGrad = false) →
      TemplatedAttentionAutogradOp_forward dispatch query key value fw_graph
          joint_graph other_buffers
        = Except.ok (dispatch query key value fw_graph other_buffers))
    ∧ (TemplatedAttentionAutogradOp_backward bwDispatch query key value out
          logsumexp grad_out fw_graph joint_graph other_buffers).drop 3
        = List.replicate (2 + other_buffers.length) none
    ∧ (TemplatedAttentionAutogradOp_backward bwDispatch query key value out
          logsumexp grad_out fw_graph joint_graph other_buffers).length
        = 5 + other_buffers.length := by
  refine ⟨?_, ?_, ?_, ?_⟩
  · intro h
    have hany : other_buffers.any (fun b => b.requiresGrad) = true := by
      rcases h with ⟨b, hb, hbt⟩
      exact List.any_eq_true.mpr ⟨b, hb, hbt⟩
    simp [TemplatedAttentionAutogradOp_forward, hany]
  · intro h
    have hany : other_buffers.any (fun b => b.requiresGrad) = false := by
      cases hcase : other_buffers.any (fun b => b.requiresGrad) with
      | false => rfl
      | true =>
        rcases List.any_eq_true.mp hcase with ⟨b, hb, hbt⟩
        rw [h b hb] at hbt
        exact absurd hbt (by simp)
    simp [TemplatedAttentionAutogradOp_forward, hany]
  · rfl
  · simp [TemplatedAttentionAutogradOp_backward]
    omega

/-- C9 witness: with one grad-requiring buffer the forward errors; with
one grad-free buffer it dispatches; the backward's tail after the three
gradients is three `None`s for one captured buffer. -/
theorem C9_autograd_grads_only_qkv_witness :
    TemplatedAttentionAutogradOp_forward dispatchAgFix tFix tFix tFix ⟨false⟩
        ⟨false⟩ [{ requiresGrad := true }]
      = Except.error AttnError.capturedBufferRequiresGrad
    ∧ TemplatedAttentionAutogradOp_forward dispatchAgFix tFix tFix tFix
        ⟨false⟩ ⟨false⟩ [{ requiresGrad := false }]
      = Except.ok (dispatchAgFix tFix tFix tFix ⟨false⟩
          [{ requiresGrad := false }])
    ∧ (TemplatedAttentionAutogradOp_backward dispatchAgBFix tFix tFix tFix
        tFix tFix tFix ⟨false⟩ ⟨false⟩ [{ requiresGrad := false }]).drop 3
      = List.replicate 3 none :=
  ⟨(C9_autograd_grads_only_qkv dispatchAgFix dispatchAgBFix tFix tFix tFix
      tFix tFix tFix ⟨false⟩ ⟨false⟩ [{ requiresGrad := true }]).1
      ⟨{ requiresGrad := true }, by simp, rfl⟩,
   (C9_autograd_grads_only_qkv dispatchAgFix dispatchAgBFix tFix tFix tFix
      tFix tFix tFix ⟨false⟩ ⟨false⟩ [{ requiresGrad := false }]).2.1
      (by intro b hb; simp at hb; rw [hb]),
   (C9_autograd_grads_only_qkv dispatchAgFix dispatchAgBFix tFix tFix tFix
      tFix tFix tFix ⟨false⟩ ⟨false⟩ [{ requiresGrad := false }]).2.2.1⟩

/-- C10: `math_attention` (and hence the CompositeExplicitAutograd
implementation `sdpa_dense`) computes the scores and the softmax in a
working precision of float64 when the query dtype is float64 and float32
otherwise, returns the attention output cast back to the query's dtype
(made contiguous in `sdpa_dense`), and returns logsumexp in the working
precision rather than the query's dtype. -/
theorem C10_math_attention_working_precision
    (query key value : Tensor) (score_mod : Tensor → Tensor)
    (hv : value.dtype = query.dtype) :
    (query.dtype = DType.float64 → working_precision query = DType.float64)
    ∧ (query.dtype ≠ DType.float64 → working_precision query = DType.float32)
    ∧ (attention_scores query key score_mod).dtype = working_precision query
    ∧ ((attention_scores query key score_mod).softmaxLast).dtype
        = working_precision query
    ∧ (math_attention query key value score_mod).1.dtype = query.dtype
    ∧ (math_attention query key value score_mod).2.dtype
        = working_precision query
    ∧ (sdpa_dense query key value score_mod).1.dtype = query.dtype
    ∧ (sdpa_dense query key value score_mod).1.contiguous = true
    ∧ (sdpa_dense query key value score_mod).2
        = (math_attention query key value score_mod).2 := by
  refine ⟨fun h => by simp [working_precision, h],
          fun h => by simp [working_precision, h], rfl, rfl, ?_, rfl, ?_, rfl,
          rfl⟩
  · simp [math_attention, Tensor.matmul, Tensor.toD, Tensor.softmaxLast,
      DType.promote, hv]
  · simp [sdpa_dense, Tensor.contiguousT, math_attention, Tensor.matmul,
      Tensor.toD, Tensor.softmaxLast, DType.promote, hv]

/-- C10 witness: at a concrete half-precision query the working
precision is float32, the logsumexp dtype is float32, and the dense
output is contiguous with the query's dtype. -/
theorem C10_math_attention_working_precision_witness :
    working_precision tFix = DType.float32
    ∧ (math_attention tFix tFix tFix (fun t => t)).2.dtype
        = working_precision tFix
    ∧ (sdpa_dense tFix tFix tFix (fun t => t)).1.dtype = tFix.dtype
    ∧ (sdpa_dense tFix tFix tFix (fun t => t)).1.contiguous = true :=
  ⟨(C10_math_attention_working_precision tFix tFix tFix (fun t => t) rfl).2.1
      (by decide),
   (C10_math_attention_working_precision tFix tFix tFix (fun t => t)
      rfl).2.2.2.2.2.1,
   (C10_math_attention_working_precision tFix tFix tFix (fun t => t)
      rfl).2.2.2.2.2.2.1,
   (C10_math_attention_working_precision tFix tFix tFix (fun t => t)
      rfl).2.2.2.2.2.2.2.1⟩

/-- C5 counterexample: the claim quantifies over both cited
functionalization rules, but the backward functionalization performs no
mutation check at all: with user graphs whose functionalized run does
mutate the shared buffers it still completes and redispatches instead of
raising `UnsupportedAliasMutationException`. -/
theorem C5_backward_skips_mutation_check_counterexample :
    templated_attention_backward_functionalize dispatchFnBFix tFix tFix tFix
        tFix tFix tFix ⟨true⟩ ⟨true⟩ []
      = Except.ok (dispatchFnBFix tFix tFix tFix tFix tFix tFix ⟨true⟩ ⟨true⟩
          [])
    ∧ templated_attention_backward_functionalize dispatchFnBFix tFix tFix tFix
        tFix tFix tFix ⟨true⟩ ⟨true⟩ []
      ≠ Except.error AttnError.unsupportedAliasMutation :=
  ⟨rfl, by simp [templated_attention_backward_functionalize]⟩

/-- C5 (amended): the forward functionalization raises
`UnsupportedAliasMutationException` before dispatching whenever the
mutation analysis detects that `score_mod` mutates the shared
`other_buffers`, and proceeds normally when no mutation is detected; the
backward functionalization skips the mutation check and always
redispatches, relying on the forward's guarantee. -/
theorem C5_functionalize_mutation_check
    (dispatchFwd : Tensor → Tensor → Tensor → UserGraph → List Tensor →
      Tensor × Tensor)
    (dispatchBwd : Tensor → Tensor → Tensor → Tensor → Tensor → Tensor →
      UserGraph → UserGraph → List Tensor → Tensor × Tensor × Tensor)
    (query key value out logsumexp grad_out : Tensor)
    (score_mod fw_graph joint_graph : UserGraph)
    (other_buffers : List Tensor) :
    (score_mod.mutatesInputs = true →
      ∀ dispatch, templated_attention_functionalize dispatch query key value
          score_mod other_buffers
        = Except.error AttnError.unsupportedAliasMutation)
    ∧ (score_mod.mutatesInputs = false →
      templated_attention_functionalize dispatchFwd query key value score_mod
          other_buffers
        = Except.ok (dispatchFwd query key value score_mod other_buffers))
    ∧ templated_attention_backward_functionalize dispatchBwd query key value
        out logsumexp grad_out fw_graph joint_graph other_buffers
      = Except.ok (dispatchBwd query key value out logsumexp grad_out fw_graph
          joint_graph other_buffers) := by
  refine ⟨?_, ?_, rfl⟩
  · intro h dispatch
    simp [templated_attention_functionalize, h]
  · intro h
    simp [templated_attention_functionalize, h]

/-- C5 witness: a mutating `score_mod` makes the forward
functionalization raise, and a non-mutating one lets it dispatch. -/
theorem C5_functionalize_mutation_check_witness :
    templated_attention_functionalize dispatchFnFix tFix tFix tFix ⟨true⟩ []
      = Except.error AttnError.unsupportedAliasMutation
    ∧ templated_attention_functionalize dispatchFnFix tFix tFix tFix ⟨false⟩ []
      = Except.ok (dispatchFnFix tFix tFix tFix ⟨false⟩ []) :=
  ⟨(C5_functionalize_mutation_check dispatchFnFix dispatchFnBFix tFix tFix
      tFix tFix tFix tFix ⟨true⟩ ⟨false⟩ ⟨false⟩ []).1 rfl dispatchFnFix,
   (C5_functionalize_mutation_check dispatchFnFix dispatchFnBFix tFix tFix
      tFix tFix tFix tFix ⟨false⟩ ⟨false⟩ ⟨false⟩ []).2.1 rfl⟩

end PytorchSpec

namespace CutlassAutotune

open PytorchSpec

/-! ### Concrete fixtures used by the autotune witness theorems -/

/-- A concrete 1×1 matrix. -/
def aFix : Fin 1 → Fin 1 → ℚ := fun _ _ => 2

/-- Another concrete 1×1 matrix. -/
def bFix : Fin 1 → Fin 1 → ℚ := fun _ _ => 3

/-! ### Claim theorems for the autotuning core -/

/-- C2 counterexample: under the claim's own rule — volume must meet or
exceed the threshold to pass the filter — the scenario of the threshold
test (volume 100·100·10 = 100000, threshold 100000) does NOT drop the
templated-codegen candidate: it survives the feasibility filter and
appears in the benchmark list, contradicting the claim's conclusion that
it is filtered out. -/
theorem C2_inclusive_rule_counterexample :
    thresholdTestOp.volume = thresholdTestMinSize
    ∧ ({ backend := BackendKind.templatedCodegen } : CandidateDescriptor)
        ∈ benchmark_list_spec thresholdTestMinSize thresholdTestOp
            thresholdTestCands := by
  decide

/-- C2 (amended): the code's threshold boundary is exclusive — a
templated-codegen candidate passes the feasibility filter only when the
operation volume strictly exceeds the minimum-problem-size threshold, as
the threshold test asserts.  At volume 100000 with threshold 100000 the
templated-codegen candidates are therefore filtered out of the benchmark
list and, whatever latencies the benchmark measures, the winner is the
reference backend. -/
theorem C2_threshold_boundary_reference_wins
    (latency : CandidateDescriptor → ℚ) :
    benchmark_list_code thresholdTestMinSize thresholdTestOp thresholdTestCands
      = [{ backend := BackendKind.reference }]
    ∧ selectWinner
        ((benchmark_list_code thresholdTestMinSize thresholdTestOp
            thresholdTestCands).map
          (fun c => { cand := c, latency := latency c, success := true }))
      = some { backend := BackendKind.reference } := by
  have h1 : benchmark_list_code thresholdTestMinSize thresholdTestOp
      thresholdTestCands = [{ backend := BackendKind.reference }] := by decide
  refine ⟨h1, ?_⟩
  rw [h1]
  rfl

/-- C3: for every OperationSpec whose volume is below the configured
minimum-problem-size threshold, no templated-codegen candidate appears
in the candidate list passed to the Benchmark Runner — under the spec's
wording of the boundary and equally under the boundary the threshold
test pins. -/
theorem C3_below_threshold_no_templated
    (threshold : Nat) (s : OperationSpec) (cands : List CandidateDescriptor)
    (h : s.volume < threshold) :
    (∀ c ∈ benchmark_list_spec threshold s cands,
      c.backend ≠ BackendKind.templatedCodegen)
    ∧ (∀ c ∈ benchmark_list_code threshold s cands,
      c.backend ≠ BackendKind.templatedCodegen)
    ∧ ({ backend := BackendKind.templatedCodegen } : CandidateDescriptor)
        ∉ benchmark_list_spec threshold s cands := by
  have hspec : ∀ c ∈ benchmark_list_spec threshold s cands,
      c.backend ≠ BackendKind.templatedCodegen := by
    intro c hc hbt
    have hp := (List.mem_filter.mp hc).2
    unfold passes_min_size_spec at hp
    rw [hbt] at hp
    simp at hp
    omega
  refine ⟨hspec, ?_, ?_⟩
  · intro c hc hbt
    have hp := (List.mem_filter.mp hc).2
    unfold passes_min_size_code at hp
    rw [hbt] at hp
    simp at hp
    omega
  · intro hmem
    exact hspec _ hmem rfl

/-- C3 witness: a (100×10)·(10×99) matmul has volume 99000, below the
threshold 100000, and the templated candidate is absent from the
benchmark list. -/
theorem C3_below_threshold_no_templated_witness :
    ({ backend := BackendKind.templatedCodegen } : CandidateDescriptor)
      ∉ benchmark_list_spec 100000 { m := 100, k := 10, n := 99 }
          thresholdTestCands :=
  (C3_below_threshold_no_templated 100000 { m := 100, k := 10, n := 99 }
    thresholdTestCands (by decide)).2.2

/-- C1 counterexample: the repository's own test for the scale-and-add
epilogue after the (256×32)·(32×256) half-precision matmul with matching
accumulate dtype asserts `expected_fuse_count = 0`, so a run in which
the epilogue fusion counter ends incremented by exactly 1 fails the
test's assertion. -/
theorem C1_fuse_count_one_fails_test :
    fusion_test_passes simple_fusion_fp16_case 1 = false
    ∧ simple_fusion_fp16_case.expected_fuse_count ≠ 1 := by
  decide

/-- C1 (amended): for the elementwise scale epilogue following a
(256×32)·(32×256) half-precision matmul with matching accumulate dtype,
the epilogue fusion counter ends the run incremented by exactly 0 — the
pointwise ops are pre-fused into a single Pointwise node and no CUDA
epilogue fusion is counted; any run passing the embedded test assertion
has counter value 0. -/
theorem C1_simple_fusion_counter_is_zero :
    simple_fusion_fp16_case.expected_fuse_count = 0
    ∧ ∀ actual_count : Nat,
        fusion_test_passes simple_fusion_fp16_case actual_count = true →
        actual_count = 0 := by
  refine ⟨rfl, ?_⟩
  intro actual_count h
  simp [fusion_test_passes, simple_fusion_fp16_case] at h
  exact h

/-- C1 witness: the counter value 0 passes the test assertion. -/
theorem C1_simple_fusion_counter_is_zero_witness :
    fusion_test_passes simple_fusion_fp16_case 0 = true ∧ (0 : Nat) = 0 :=
  ⟨by decide, C1_simple_fusion_counter_is_zero.2 0 (by decide)⟩

/-- C4: for every run whose epilogue casts the kernel output to a wider
dtype than the kernel's internal accumulation dtype while the kernel has
no explicit cast stage, the fusion-legality verdict is negative, the
epilogue is not fused and the epilogue fusion counter is incremented by
0 — in agreement with the dtype-mismatch test's asserted expectation. -/
theorem C4_dtype_mismatch_not_fused
    (kern : WinningKernel) (eps : List EpilogueOp) (d : DType)
    (hmem : EpilogueOp.castTo d ∈ eps)
    (hwider : kern.accumulator_dtype.bits < d.bits)
    (hcast : kern.has_cast_stage = false) :
    fusionLegal kern eps = false
    ∧ (∀ {m kk n : Nat} (a : Fin m → Fin kk → ℚ) (b : Fin kk → Fin n → ℚ),
        (runSelected kern eps a b).1 = 0)
    ∧ no_fusion_dtype_mismatch_case.expected_fuse_count = 0 := by
  have hne : d ≠ kern.accumulator_dtype := by
    intro he
    rw [he] at hwider
    omega
  have hf : EpilogueOp.fusible kern (EpilogueOp.castTo d) = false := by
    simp [EpilogueOp.fusible, hcast, hne]
  have hall : fusionLegal kern eps = false := by
    cases hcase : fusionLegal kern eps with
    | false => rfl
    | true =>
      unfold fusionLegal at hcase
      have := List.all_eq_true.mp hcase (EpilogueOp.castTo d) hmem
      rw [hf] at this
      exact absurd this (by simp)
  refine ⟨hall, ?_, rfl⟩
  intro m kk n a b
  simp [runSelected, hall]

/-- C4 witness: the dtype-mismatch test's epilogue (cast fp16 output to
float32, then scale) is judged not fusible for an fp16-accumulating
kernel without a cast stage, and the run increments the counter by 0. -/
theorem C4_dtype_mismatch_not_fused_witness :
    fusionLegal { accumulator_dtype := DType.float16, has_cast_stage := false }
        no_fusion_dtype_mismatch_case.epilogue = false
    ∧ (runSelected
        { accumulator_dtype := DType.float16, has_cast_stage := false }
        no_fusion_dtype_mismatch_case.epilogue aFix bFix).1 = 0 :=
  ⟨(C4_dtype_mismatch_not_fused
      { accumulator_dtype := DType.float16, has_cast_stage := false }
      no_fusion_dtype_mismatch_case.epilogue DType.float32
      (by simp [no_fusion_dtype_mismatch_case]) (by decide) rfl).1,
   (C4_dtype_mismatch_not_fused
      { accumulator_dtype := DType.float16, has_cast_stage := false }
      no_fusion_dtype_mismatch_case.epilogue DType.float32
      (by simp [no_fusion_dtype_mismatch_case]) (by decide) rfl).2.1 aFix bFix⟩

/-- C6 counterexample: the repository's own shape-dependent
normalization test — epilogue `(a @ b) / b.size(1)` — asserts
`expected_fuse_count = 0`, so a run in which this fusion occurs and
increments the counter (to 1) fails the test's assertion. -/
theorem C6_fuse_count_one_fails_test :
    fusion_test_passes shape_dependent_normalization_case 1 = false
    ∧ shape_dependent_normalization_case.expected_fuse_count ≠ 1 := by
  decide

/-- C6 (amended): an epilogue dividing the kernel output by a
dimension-derived scalar expressible as a broadcastable per-tile
constant (dividing by `b.size(1)` = 256 under static shapes) is legal to
fuse for every winning kernel, but in this snapshot the test scenario
produces no counted fusion: the epilogue fusion counter is incremented
by exactly 0, as the test asserts. -/
theorem C6_shape_dependent_normalization_legal_but_zero :
    (∀ kern : WinningKernel,
      fusionLegal kern shape_dependent_normalization_case.epilogue = true)
    ∧ shape_dependent_normalization_case.expected_fuse_count = 0
    ∧ ∀ actual_count : Nat,
        fusion_test_passes shape_dependent_normalization_case actual_count
          = true →
        actual_count = 0 := by
  refine ⟨fun kern => rfl, rfl, ?_⟩
  intro actual_count h
  simp [fusion_test_passes, shape_dependent_normalization_case] at h
  exact h

/-- C6 witness: the counter value 0 passes the normalization test's
assertion. -/
theorem C6_shape_dependent_normalization_witness :
    fusion_test_passes shape_dependent_normalization_case 0 = true
    ∧ (0 : Nat) = 0 :=
  ⟨by decide,
   C6_shape_dependent_normalization_legal_but_zero.2.2 0 (by decide)⟩

/-- C7: whenever epilogue fusion fails (the counter increment of the run
is 0), the final result is still numerically correct — the unfused
kernel output with the epilogue executed as a separate elementwise pass
equals the reference computation exactly, hence matches it within every
nonnegative absolute tolerance. -/
theorem C7_unfused_path_matches_reference
    {m kk n : Nat} (kern : WinningKernel) (eps : List EpilogueOp)
    (a : Fin m → Fin kk → ℚ) (b : Fin kk → Fin n → ℚ)
    (h : (runSelected kern eps a b).1 = 0) :
    (runSelected kern eps a b).2 = referenceCompute eps a b
    ∧ ∀ (i : Fin m) (j : Fin n) (ε : ℚ), 0 ≤ ε →
        |(runSelected kern eps a b).2 i j - referenceCompute eps a b i j|
          ≤ ε := by
  have hleg : fusionLegal kern eps = false := by
    cases hcase : fusionLegal kern eps with
    | false => rfl
    | true => simp [runSelected, hcase] at h
  have heq : (runSelected kern eps a b).2 = referenceCompute eps a b := by
    funext i j
    simp [runSelected, hleg, referenceCompute]
  refine ⟨heq, ?_⟩
  intro i j ε hε
  rw [heq]
  simpa using hε

/-- C7 witness: a cast-to-float64 epilogue on an fp16-accumulating
kernel does not fuse (counter 0) and the separate-pass output equals the
reference computation. -/
theorem C7_unfused_path_matches_reference_witness :
    (runSelected { accumulator_dtype := DType.float16, has_cast_stage := false }
        [EpilogueOp.castTo DType.float64] aFix bFix).1 = 0
    ∧ (runSelected
        { accumulator_dtype := DType.float16, has_cast_stage := false }
        [EpilogueOp.castTo DType.float64] aFix bFix).2
      = referenceCompute [EpilogueOp.castTo DType.float64] aFix bFix :=
  ⟨by decide,
   (C7_unfused_path_matches_reference
      { accumulator_dtype := DType.float16, has_cast_stage := false }
      [EpilogueOp.castTo DType.float64] aFix bFix (by decide)).1⟩

end CutlassAutotune
